import Mathlib

/-!
# Project Timeline Tracker — verification of the status-derivation engine

Shallow embedding of the core logic of `app.py` (Flask project/milestone
tracker).  Dates are modelled as integers (day ordinals): the source only
compares dates, never does arithmetic on them, so any linearly ordered
representation is faithful.  Status and priority fields are stored as free
strings in the database, so they are modelled as `String`, which keeps the
"any other / unrecognized value" branches of the source meaningful.

Database commit semantics: each Flask handler mutates ORM objects in a
session and persists them only at `db.session.commit()`.  A handler that
returns before any commit (every validation-failure path) leaves the store
unchanged, because the request-scoped session is rolled back at teardown.
The embedded operations therefore return the *persisted* record states: on
a validation error they return the input records unchanged.
-/

/-- A milestone row: `milestone_name`, `start_date`, `end_date`,
`status` (default `'Not Started'`), `priority` (default `'Medium'`).
The `project_id` back-reference is represented by passing the parent
project explicitly to the operations that use it. -/
structure Milestone where
  milestone_name : String
  start_date : Int
  end_date : Int
  status : String
  priority : String
deriving Repr, DecidableEq

/-- A project row: `project_name`, `client_name`, `start_date`, `end_date`,
`status` (default `'Not Completed'`), and its `milestones` relationship. -/
structure Project where
  project_name : String
  client_name : String
  start_date : Int
  end_date : Int
  status : String
  milestones : List Milestone
deriving Repr, DecidableEq

/-- Embeds `get_milestone_status(milestone, today)` (app.py lines 34-58):
a user-stored `'Completed'` is authoritative; a stored `'In Progress'`
becomes `'Overdue'` once `end_date < today`; any other stored value is
auto-detected from the dates. -/
def get_milestone_status (m : Milestone) (today : Int) : String :=
  if m.status = "Completed" then "Completed"
  else if m.status = "In Progress" then
    if m.end_date < today then "Overdue" else "In Progress"
  else
    if today < m.start_date then "Not Started"
    else if today > m.end_date then "Overdue"
    else "In Progress"

/-- Reference definition written from the spec's three-rule wording
(spec §4.1, milestone status derivation), to be compared with
`get_milestone_status`: rule 1 `Completed` override, rule 2 `In Progress`
with `today > end_date` check, rule 3 date-only auto-detection. -/
def spec_milestone_status (stored : String) (s e today : Int) : String :=
  if stored = "Completed" then "Completed"
  else if stored = "In Progress" then
    if today > e then "Overdue" else "In Progress"
  else
    if today < s then "Not Started"
    else if today > e then "Overdue"
    else "In Progress"

/-- C1: for every milestone and reference date, the effective status
computed by the code equals the spec's three-rule reference definition. -/
theorem get_milestone_status_eq_spec (m : Milestone) (today : Int) :
    get_milestone_status m today =
      spec_milestone_status m.status m.start_date m.end_date today := by
  unfold get_milestone_status spec_milestone_status
  split_ifs <;> simp_all

/-- C4: for a milestone with `start_date ≤ end_date`, storing the derived
effective status back as the stored status and re-deriving at the same
`today` is a fixed point: it yields the same effective status again. -/
theorem get_milestone_status_fixed_point (m : Milestone) (today : Int)
    (h : m.start_date ≤ m.end_date) :
    get_milestone_status { m with status := get_milestone_status m today } today
      = get_milestone_status m today := by
  unfold get_milestone_status
  split_ifs <;> simp_all <;> omega

/-- Concrete milestone used by the C4 witness: stored `'In Progress'`,
range `[0, 10]`. -/
def c4_milestone : Milestone :=
  { milestone_name := "M", start_date := 0, end_date := 10,
    status := "In Progress", priority := "Medium" }

/-- Witness for C4 at a concrete milestone: at `today = 20` the derived
status is `'Overdue'`; re-deriving from a stored `'Overdue'` yields
`'Overdue'` again. -/
theorem get_milestone_status_fixed_point_witness :
    get_milestone_status
        { c4_milestone with status := get_milestone_status c4_milestone 20 } 20
      = get_milestone_status c4_milestone 20 :=
  get_milestone_status_fixed_point c4_milestone 20 (by decide)

/-- Embeds the per-project status update of the dashboard loop
(app.py lines 116-126): a project whose stored status is not `'Completed'`
has its status recomputed from the dates and persisted at the following
commit; a `'Completed'` project is left alone. -/
def dashboard_update_project (p : Project) (today : Int) : Project :=
  if p.status = "Completed" then p
  else
    if p.end_date < today then { p with status := "Overdue" }
    else if p.start_date ≤ today then { p with status := "In Progress" }
    else { p with status := "Not Started" }

/-- Embeds `toggle_status(project_id)` (app.py lines 191-224) at the level
of the persisted project record.  Toggling out of `'Completed'` first sets
`'Not Completed'` and then immediately overwrites it with the date-derived
value; toggling towards `'Completed'` scans the milestones' effective
statuses and silently leaves the record untouched when one is not
`'Completed'`.  The handler commits and redirects (reports success) on
every path; it never raises. -/
def toggle_status (p : Project) (today : Int) : Project :=
  if p.status = "Completed" then
    -- the source first assigns 'Not Completed' and then unconditionally
    -- overwrites it with the date-derived value, so that assignment is dead
    if p.end_date < today then { p with status := "Overdue" }
    else if p.start_date ≤ today then { p with status := "In Progress" }
    else { p with status := "Not Started" }
  else
    -- the source loop computes all_completed with an early break;
    -- it equals a conjunction over the milestone list
    if p.milestones.all (fun m => get_milestone_status m today = "Completed") then
      { p with status := "Completed" }
    else p

/-- C2: toggling a project whose stored status is not `'Completed'` sets it
to `'Completed'` iff every milestone's effective status at `today` is
`'Completed'`; otherwise the toggle leaves the whole record (status and all
other stored fields) unchanged. -/
theorem toggle_status_completion_gate (p : Project) (today : Int)
    (h : p.status ≠ "Completed") :
    ((toggle_status p today).status = "Completed" ↔
      ∀ m ∈ p.milestones, get_milestone_status m today = "Completed") ∧
    ((¬ ∀ m ∈ p.milestones, get_milestone_status m today = "Completed") →
      toggle_status p today = p) := by
  unfold toggle_status
  rw [if_neg h]
  by_cases hall : ∀ m ∈ p.milestones, get_milestone_status m today = "Completed"
  · rw [if_pos (by simpa [List.all_eq_true] using hall)]
    exact ⟨by simpa using hall, fun hc => absurd hall hc⟩
  · rw [if_neg (by simpa [List.all_eq_true] using hall)]
    exact ⟨⟨fun hc => absurd hc h, fun hc => absurd hc hall⟩, fun _ => rfl⟩

/-- Witness for C2 at a concrete project: status `'In Progress'`, one
milestone whose effective status is not `'Completed'`, so the toggle is an
exact no-op. -/
theorem toggle_status_completion_gate_witness :
    toggle_status
        { project_name := "P", client_name := "C", start_date := 0,
          end_date := 30, status := "In Progress",
          milestones := [{ milestone_name := "M", start_date := 0,
                           end_date := 10, status := "Not Started",
                           priority := "Medium" }] } 5
      = { project_name := "P", client_name := "C", start_date := 0,
          end_date := 30, status := "In Progress",
          milestones := [{ milestone_name := "M", start_date := 0,
                           end_date := 10, status := "Not Started",
                           priority := "Medium" }] } :=
  (toggle_status_completion_gate
    { project_name := "P", client_name := "C", start_date := 0,
      end_date := 30, status := "In Progress",
      milestones := [{ milestone_name := "M", start_date := 0,
                       end_date := 10, status := "Not Started",
                       priority := "Medium" }] } 5 (by decide)).2 (by decide)

/-- C3: both automatic recomputations of a project's status — the dashboard
pass on a non-`'Completed'` project, and the toggle out of `'Completed'` —
yield `'Overdue'` when `today > end_date`, else `'In Progress'` when
`start_date ≤ today`, else `'Not Started'`. -/
theorem automatic_project_status_rule (p : Project) (today : Int) :
    (p.status ≠ "Completed" →
      (dashboard_update_project p today).status =
        (if today > p.end_date then "Overdue"
         else if p.start_date ≤ today then "In Progress"
         else "Not Started")) ∧
    (p.status = "Completed" →
      (toggle_status p today).status =
        (if today > p.end_date then "Overdue"
         else if p.start_date ≤ today then "In Progress"
         else "Not Started")) := by
  unfold dashboard_update_project toggle_status
  constructor
  · intro h
    rw [if_neg h]
    split_ifs <;> simp_all
  · intro h
    rw [if_pos h]
    split_ifs <;> simp_all

/-- Witness for C3 at a concrete project: an `'In Progress'` project past
its end date is recomputed to `'Overdue'` by the dashboard pass. -/
theorem automatic_project_status_rule_witness :
    (dashboard_update_project
        { project_name := "P", client_name := "C", start_date := 0,
          end_date := 10, status := "In Progress", milestones := [] } 20).status
      = (if (20 : Int) > (10 : Int) then "Overdue"
         else if (0 : Int) ≤ (20 : Int) then "In Progress"
         else "Not Started") :=
  (automatic_project_status_rule
    { project_name := "P", client_name := "C", start_date := 0,
      end_date := 10, status := "In Progress", milestones := [] } 20).1
    (by decide)

/-- True when `c` is an ASCII letter. -/
def asciiIsAlpha (c : Char) : Bool :=
  decide ((97 ≤ c.toNat ∧ c.toNat ≤ 122) ∨ (65 ≤ c.toNat ∧ c.toNat ≤ 90))

/-- Lowercases an ASCII letter, leaving any other character unchanged. -/
def asciiLower (c : Char) : Char :=
  if 65 ≤ c.toNat ∧ c.toNat ≤ 90 then Char.ofNat (c.toNat + 32) else c

/-- Uppercases an ASCII letter, leaving any other character unchanged. -/
def asciiUpper (c : Char) : Char :=
  if 97 ≤ c.toNat ∧ c.toNat ≤ 122 then Char.ofNat (c.toNat - 32) else c

/-- Drops leading whitespace from a character list. -/
def stripLeading : List Char → List Char
  | [] => []
  | c :: cs => if c.isWhitespace then stripLeading cs else c :: cs

/-- Python `str.strip()`: whitespace removed from both ends. -/
def pyStrip (l : List Char) : List Char :=
  (stripLeading (stripLeading l).reverse).reverse

/-- Title-casing pass over a character list; the flag records whether the
previous character was a letter (Python titlecases a letter exactly when
the preceding character is not one, and lowercases it otherwise). -/
def titleAux : Bool → List Char → List Char
  | _, [] => []
  | prevAlpha, c :: cs =>
    (if asciiIsAlpha c then (if prevAlpha then asciiLower c else asciiUpper c)
     else c) :: titleAux (asciiIsAlpha c) cs

/-- Embeds `to_title_case(text)` (app.py lines 20-24) for ASCII text:
Python's `str.strip().title()` — surrounding whitespace removed, then each
word's first letter uppercased and the rest lowercased.  (The source passes
arbitrary Unicode through the same rule; the claims never depend on
non-ASCII casing.)  The source returns falsy input unchanged; the empty
string maps to itself here as well. -/
def to_title_case (s : String) : String :=
  String.mk (titleAux false (pyStrip s.data))

/-- Embeds `calculate_completion_percentage(project)` (app.py lines 26-32)
and the identical `Project.completion_percentage` property (lines 80-86):
0 when there are no milestones, otherwise the truncated percentage of
milestones whose stored status is `'Completed'`.  The source computes
`int((completed / len) * 100)` with IEEE-754 double division; this model
uses the exact truncated ratio, which the source's double rounding can
perturb (see the analysis of the completion-percentage claim). -/
def calculate_completion_percentage (p : Project) : Nat :=
  if p.milestones = [] then 0
  else 100 * (p.milestones.filter (fun m => m.status = "Completed")).length
         / p.milestones.length

/-- C9: toggling a project with no milestones and a stored status other
than `'Completed'` always sets the status to `'Completed'` — the
all-milestones-completed gate is vacuously satisfied — even though such a
project's completion percentage is 0. -/
theorem toggle_status_empty_milestones (p : Project) (today : Int)
    (h0 : p.milestones = []) (h : p.status ≠ "Completed") :
    (toggle_status p today).status = "Completed" ∧
    calculate_completion_percentage p = 0 := by
  unfold toggle_status calculate_completion_percentage
  rw [if_neg h, h0]
  simp

/-- Concrete project used by the C9 witness: in progress, no milestones. -/
def c9_project : Project :=
  { project_name := "P", client_name := "C", start_date := 0, end_date := 10,
    status := "In Progress", milestones := [] }

/-- Witness for C9: the concrete empty-milestone project toggles straight
to `'Completed'` while its completion percentage is 0. -/
theorem toggle_status_empty_milestones_witness :
    (toggle_status c9_project 5).status = "Completed" ∧
    calculate_completion_percentage c9_project = 0 :=
  toggle_status_empty_milestones c9_project 5 (by decide) (by decide)

/-- The milestone create/edit form fields (app.py lines 267-273 and
310-318): name, dates, status, priority. -/
structure MilestoneForm where
  milestonename : String
  startdate : Int
  enddate : Int
  status : String
  priority : String
deriving Repr, DecidableEq

/-- The three validation errors of the milestone create/edit handlers, in
source order (app.py lines 275-286 and 320-331): `nesting_start` is
"Milestone start date cannot be before project start date (...)",
`nesting_end` is "Milestone end date cannot be after project end date
(...)", `range_violation` is "Milestone start date cannot be after end
date". -/
inductive MilestoneError where
  | nesting_start
  | nesting_end
  | range_violation
deriving Repr, DecidableEq

/-- Embeds `add_milestone(project_id)` (app.py lines 263-301): the three
validation checks in source order, then the new persisted row. -/
def add_milestone (p : Project) (f : MilestoneForm) :
    Except MilestoneError Milestone :=
  if f.startdate < p.start_date then Except.error MilestoneError.nesting_start
  else if f.enddate > p.end_date then Except.error MilestoneError.nesting_end
  else if f.startdate > f.enddate then Except.error MilestoneError.range_violation
  else Except.ok
    { milestone_name := to_title_case f.milestonename,
      start_date := f.startdate, end_date := f.enddate,
      status := f.status, priority := f.priority }

/-- Embeds `edit_milestone(milestone_id)` (app.py lines 304-345) at the
level of the persisted records.  The handler assigns the new name and
priority on the session object before validating, but those writes reach
the store only at the commit that follows a fully successful validation,
so a failure leaves both records unchanged.  After a successful commit, a
milestone edited away from a stored `'Completed'` forces the parent
project's status to `'Not Completed'`.  Returns the persisted milestone,
the persisted parent project, and the reported error if any. -/
def edit_milestone (m : Milestone) (p : Project) (f : MilestoneForm) :
    Milestone × Project × Option MilestoneError :=
  if f.startdate < p.start_date then (m, p, some MilestoneError.nesting_start)
  else if f.enddate > p.end_date then (m, p, some MilestoneError.nesting_end)
  else if f.startdate > f.enddate then (m, p, some MilestoneError.range_violation)
  else
    ({ m with milestone_name := to_title_case f.milestonename,
              priority := f.priority, start_date := f.startdate,
              end_date := f.enddate, status := f.status },
     if m.status = "Completed" ∧ f.status ≠ "Completed" then
       { p with status := "Not Completed" }
     else p,
     none)

/-- C6: milestone create and edit validate in a fixed order and surface
only the first failing check — start-nesting, then end-nesting, then date
range — and a milestone starting exactly on the project's start date
passes the first check. -/
theorem milestone_validation_order (p : Project) (f : MilestoneForm) :
    (f.startdate < p.start_date →
      add_milestone p f = Except.error MilestoneError.nesting_start ∧
      ∀ m, edit_milestone m p f = (m, p, some MilestoneError.nesting_start)) ∧
    (¬ f.startdate < p.start_date → f.enddate > p.end_date →
      add_milestone p f = Except.error MilestoneError.nesting_end ∧
      ∀ m, edit_milestone m p f = (m, p, some MilestoneError.nesting_end)) ∧
    (¬ f.startdate < p.start_date → ¬ f.enddate > p.end_date →
        f.startdate > f.enddate →
      add_milestone p f = Except.error MilestoneError.range_violation ∧
      ∀ m, edit_milestone m p f = (m, p, some MilestoneError.range_violation)) ∧
    (f.startdate = p.start_date →
      add_milestone p f ≠ Except.error MilestoneError.nesting_start ∧
      ∀ m, (edit_milestone m p f).2.2 ≠ some MilestoneError.nesting_start) := by
  unfold add_milestone edit_milestone
  refine ⟨fun h1 => ?_, fun h1 h2 => ?_, fun h1 h2 h3 => ?_, fun h1 => ?_⟩
  · simp [if_pos h1]
  · simp [if_neg h1, if_pos h2]
  · simp [if_neg h1, if_neg h2, if_pos h3]
  · have h1' : ¬ f.startdate < p.start_date := by omega
    simp only [if_neg h1']
    split_ifs <;> exact ⟨by simp, fun m => by simp⟩

/-- The project create/edit form fields (app.py lines 163-167 and
355-371): name, client, dates. -/
structure ProjectForm where
  project_name : String
  client_name : String
  start_date : Int
  end_date : Int
deriving Repr, DecidableEq

/-- Result of the add-project handler: the new persisted record, or a
duplicate-name warning with no record created. -/
inductive AddProjectResult where
  | created : Project → AddProjectResult
  | duplicate : AddProjectResult
deriving Repr, DecidableEq

/-- Embeds `add_project` (app.py lines 159-189): names are title-cased, an
existing project with the same normalized name aborts the create with a
warning, and otherwise the record is stored with the default status
`'Not Completed'` and no milestones.  The handler performs no date
validation of any kind. -/
def add_project (existing : List Project) (f : ProjectForm) :
    AddProjectResult :=
  if existing.any (fun q => q.project_name = to_title_case f.project_name) then
    AddProjectResult.duplicate
  else AddProjectResult.created
    { project_name := to_title_case f.project_name,
      client_name := to_title_case f.client_name,
      start_date := f.start_date, end_date := f.end_date,
      status := "Not Completed", milestones := [] }

/-- Validation failures of the edit-project handler (app.py lines
348-388), in source order: a duplicate-name warning (checked only when the
normalized name differs from the current one), the range error "Start date
cannot be after end date", and the second range check "End date must be
after start date", which repeats the same condition and is unreachable. -/
inductive ProjectEditError where
  | duplicate
  | range_start_after_end
  | range_end_before_start
deriving Repr, DecidableEq

/-- Embeds `edit_project(project_id)` (app.py lines 348-388) at the level
of the persisted record.  The handler assigns the new name and client on
the session object before the date checks, but those writes reach the
store only at the final commit, so any validation failure leaves the
persisted record unchanged. -/
def edit_project (existing : List Project) (p : Project) (f : ProjectForm) :
    Project × Option ProjectEditError :=
  if to_title_case f.project_name ≠ p.project_name ∧
      existing.any (fun q => q.project_name = to_title_case f.project_name) then
    (p, some ProjectEditError.duplicate)
  else if f.start_date > f.end_date then
    (p, some ProjectEditError.range_start_after_end)
  else if f.end_date < f.start_date then
    (p, some ProjectEditError.range_end_before_start)
  else
    ({ p with project_name := to_title_case f.project_name,
              client_name := to_title_case f.client_name,
              start_date := f.start_date, end_date := f.end_date }, none)

/-- Concrete form with `start_date > end_date` used against the claim that
project creation rejects reversed date ranges. -/
def c7_form : ProjectForm :=
  { project_name := "P", client_name := "C", start_date := 5, end_date := 3 }

/-- C7 counterexample: creating a project from a form with
`start_date = 5 > 3 = end_date` is not rejected — with no existing
projects the record is created with the reversed range stored as-is. -/
theorem add_project_accepts_reversed_range :
    c7_form.start_date > c7_form.end_date ∧
    add_project [] c7_form =
      AddProjectResult.created
        { project_name := "P", client_name := "C", start_date := 5,
          end_date := 3, status := "Not Completed", milestones := [] } :=
  ⟨by decide, by decide⟩

/-- C7 (amended): editing a project with `start_date > end_date` is always
rejected with the persisted record unchanged — with the range-violation
error unless a rename collision is surfaced first — whereas creating a
project performs no date-range validation: absent a name collision the
record is created even when `start_date > end_date`. -/
theorem project_range_validation (existing : List Project) (p : Project)
    (f : ProjectForm) (h : f.start_date > f.end_date) :
    (¬ (to_title_case f.project_name ≠ p.project_name ∧
          existing.any (fun q => q.project_name = to_title_case f.project_name)
            = true) →
      edit_project existing p f =
        (p, some ProjectEditError.range_start_after_end)) ∧
    (edit_project existing p f).1 = p ∧
    (edit_project existing p f).2 ≠ none ∧
    (existing.any (fun q => q.project_name = to_title_case f.project_name)
        = false →
      add_project existing f =
        AddProjectResult.created
          { project_name := to_title_case f.project_name,
            client_name := to_title_case f.client_name,
            start_date := f.start_date, end_date := f.end_date,
            status := "Not Completed", milestones := [] }) := by
  unfold edit_project add_project
  refine ⟨fun hdup => ?_, ?_, ?_, fun hfree => ?_⟩
  · rw [if_neg hdup, if_pos h]
  · split_ifs <;> rfl
  · split_ifs <;> simp
  · rw [if_neg (by simp [hfree])]

/-- Witness for C7 (amended) at the concrete reversed-range form: editing
a concrete project with it is rejected with the range error and no change,
and creating from it succeeds despite the reversed range. -/
theorem project_range_validation_witness :
    (¬ (to_title_case c7_form.project_name ≠ c9_project.project_name ∧
          ([] : List Project).any (fun q => q.project_name = to_title_case c7_form.project_name)
            = true) →
      edit_project [] c9_project c7_form =
        (c9_project, some ProjectEditError.range_start_after_end)) ∧
    (edit_project [] c9_project c7_form).1 = c9_project ∧
    (edit_project [] c9_project c7_form).2 ≠ none ∧
    (([] : List Project).any (fun q => q.project_name = to_title_case c7_form.project_name)
        = false →
      add_project [] c7_form =
        AddProjectResult.created
          { project_name := to_title_case c7_form.project_name,
            client_name := to_title_case c7_form.client_name,
            start_date := c7_form.start_date, end_date := c7_form.end_date,
            status := "Not Completed", milestones := [] }) :=
  project_range_validation [] c9_project c7_form (by decide)

/-- C8: a failed edit leaves every stored field of the targeted record
unchanged: whenever `edit_milestone` or `edit_project` reports a
validation error, the persisted milestone and project records equal their
inputs (no partial write reaches the store). -/
theorem failed_edit_no_partial_write (m : Milestone) (p : Project)
    (f : MilestoneForm) (existing : List Project) (q : Project)
    (g : ProjectForm) :
    ((edit_milestone m p f).2.2.isSome = true →
      (edit_milestone m p f).1 = m ∧ (edit_milestone m p f).2.1 = p) ∧
    ((edit_project existing q g).2.isSome = true →
      (edit_project existing q g).1 = q) := by
  unfold edit_milestone edit_project
  constructor
  · split_ifs <;> simp
  · split_ifs <;> simp

/-- C10: a milestone edit that passes validation and moves the stored
status away from `'Completed'` sets the parent project's status to
`'Not Completed'` unconditionally, whatever the project's previous status
was. -/
theorem edit_milestone_breaks_parent (m : Milestone) (p : Project)
    (f : MilestoneForm)
    (h1 : ¬ f.startdate < p.start_date) (h2 : ¬ f.enddate > p.end_date)
    (h3 : ¬ f.startdate > f.enddate)
    (hold : m.status = "Completed") (hnew : f.status ≠ "Completed") :
    (edit_milestone m p f).2.1 = { p with status := "Not Completed" } := by
  unfold edit_milestone
  rw [if_neg h1, if_neg h2, if_neg h3]
  simp [hold, hnew]

/-- Concrete records for the C10 witness: a completed milestone inside a
parent project whose status is `'In Progress'` (not `'Completed'`). -/
def c10_milestone : Milestone :=
  { milestone_name := "M", start_date := 0, end_date := 10,
    status := "Completed", priority := "High" }

/-- Parent project for the C10 witness. -/
def c10_project : Project :=
  { project_name := "Q", client_name := "C", start_date := 0, end_date := 20,
    status := "In Progress", milestones := [] }

/-- Edit form for the C10 witness: moves the milestone to `'In Progress'`. -/
def c10_form : MilestoneForm :=
  { milestonename := "M", startdate := 0, enddate := 10,
    status := "In Progress", priority := "High" }

/-- Witness for C10: editing the completed milestone to `'In Progress'`
overwrites the `'In Progress'` parent project's status with
`'Not Completed'`. -/
theorem edit_milestone_breaks_parent_witness :
    (edit_milestone c10_milestone c10_project c10_form).2.1
      = { c10_project with status := "Not Completed" } :=
  edit_milestone_breaks_parent c10_milestone c10_project c10_form
    (by decide) (by decide) (by decide) (by decide) (by decide)
